import Mathlib

/-!
Verification of `gitsync` (src/sync/sync-origin-and-mirror.py and the
utilities it imports) against its natural-language specification.

The Python code is shallowly embedded:

* Python `str.split()` / `str.split('/')` / `str.splitlines()` are embedded
  as character-list recursions (`splitWsAux`, `splitCharAux`);
* the branch dictionaries (`dict[str, str]`, insertion ordered, unique keys)
  are embedded as association lists built with `dict_insert`, which updates
  in place on an existing key and appends otherwise, exactly as a Python
  dict does;
* `re.match(reg, name)` (a regular-expression match anchored at the start of
  `name`) is kept abstract: every definition and theorem about the change
  classifier is parametrised by the matching oracle
  `re_match : String → String → Bool`, since the classifier's logic in
  `get_origin_branch_changes` never inspects the match beyond its truth;
* the side-effecting pass `try_sync_origin_updates_into_mirror` is embedded
  as a function of an environment `Env` carrying the subprocess runner
  (`run_cmd`, returning an exit code and captured stdout) and the
  `configure_ssh_host` oracle; the embedding returns the pass outcome
  together with the exact sequence of git commands issued (`CmdTrace`).
-/

namespace GitSync

/-- Splits a character list on whitespace runs, dropping empty pieces:
the behaviour of Python `str.split()` with no argument. `cur` is the
current in-progress token, kept reversed. -/
def splitWsAux : List Char → List Char → List String
  | [], cur => if cur.isEmpty then [] else [String.mk cur.reverse]
  | c :: rest, cur =>
    if c.isWhitespace then
      if cur.isEmpty then splitWsAux rest [] else String.mk cur.reverse :: splitWsAux rest []
    else splitWsAux rest (c :: cur)

/-- Python `line.split()`. -/
def py_split_ws (s : String) : List String := splitWsAux s.data []

/-- Splits on every occurrence of one separator character, keeping empty
pieces: the behaviour of Python `str.split(sep)` for a one-character `sep`. -/
def splitCharAux (sep : Char) : List Char → List Char → List String
  | [], cur => [String.mk cur.reverse]
  | c :: rest, cur =>
    if c = sep then String.mk cur.reverse :: splitCharAux sep rest []
    else splitCharAux sep rest (c :: cur)

/-- Python `s.split(sep)` for a one-character separator. -/
def py_split_char (s : String) (sep : Char) : List String := splitCharAux sep s.data []

/-- Python `s.splitlines()` restricted to the newline character: no entry is
produced for a trailing newline, and the empty string yields no lines. -/
def py_splitlines (s : String) : List String :=
  if s.data = [] then []
  else if s.data.getLast? = some '\n' then (py_split_char s '\n').dropLast
  else py_split_char s '\n'

/-- Python truthiness of `line.strip()`: the line holds at least one
non-whitespace character. -/
def py_nonblank (line : String) : Bool := line.data.any (fun c => ! c.isWhitespace)

/-- `ref_part.split('/')[-1]`: the path component after the final slash. -/
def last_path_component (ref_part : String) : String :=
  (py_split_char ref_part '/').getLastD ""

/-- One iteration of the ls-remote parsing loop (lines 155-159 / 174-178 of
sync-origin-and-mirror.py): a blank line is skipped, a line of exactly two
whitespace-separated tokens `commit_hash ref_part` yields the entry
`(ref_part.split('/')[-1], commit_hash)`, and any other line raises
(`commit_hash, ref_part = line.split()` is a ValueError), which the
enclosing `except` turns into the generic -1 return. -/
def parse_branch_line (line : String) : Except Unit (Option (String × String)) :=
  if py_nonblank line then
    match py_split_ws line with
    | [commit_hash, ref_part] => Except.ok (some (last_path_component ref_part, commit_hash))
    | _ => Except.error ()
  else Except.ok none

/-- Python dict assignment `d[k] = v`: update in place when the key exists,
append otherwise (insertion order preserved). -/
def dict_insert (d : List (String × String)) (k v : String) : List (String × String) :=
  if (d.lookup k).isSome then d.map (fun p => if p.1 = k then (k, v) else p)
  else d ++ [(k, v)]

/-- The ls-remote parsing loop over all lines, threading the dict. -/
def build_branch_dict : List String → List (String × String) → Except Unit (List (String × String))
  | [], acc => Except.ok acc
  | line :: rest, acc =>
    match parse_branch_line line with
    | Except.error _ => Except.error ()
    | Except.ok none => build_branch_dict rest acc
    | Except.ok (some (name, commit)) => build_branch_dict rest (dict_insert acc name commit)

/-- The Ref Snapshot Reader's parsing of one `git ls-remote -h` output. -/
def parse_branches (out : String) : Except Unit (List (String × String)) :=
  build_branch_dict (py_splitlines out) []

/-- The `BranchChanges` TypedDict of sync-origin-and-mirror.py. -/
structure BranchChanges where
  originAdded : List String
  originUpdated : List String
deriving DecidableEq

/-- The `matched` flag of the classifier loop: some rule matches the branch
name under the `re.match` oracle (the loop breaks at the first match, which
is observationally `List.any`). -/
def branch_matched (re_match : String → String → Bool)
    (changed_branch_accept_rules : List String) (branch_name : String) : Bool :=
  changed_branch_accept_rules.any (fun reg => re_match reg branch_name)

/-- The Change Classifier `get_origin_branch_changes` (lines 16-60 of
sync-origin-and-mirror.py), parametrised by the `re.match` oracle. The
source iterates the origin dict in order, skips unmatched names, and sorts
each matched name into `originAdded` (absent from the mirror dict),
`originUpdated` (present with a different commit) or neither (present with
an equal commit). -/
def get_origin_branch_changes (re_match : String → String → Bool)
    (origin_branch_dict mirror_branch_dict : List (String × String))
    (changed_branch_accept_rules : List String) : BranchChanges :=
  match origin_branch_dict with
  | [] => ⟨[], []⟩
  | (branch_name, origin_commit) :: rest =>
    let tail := get_origin_branch_changes re_match rest mirror_branch_dict
      changed_branch_accept_rules
    if branch_matched re_match changed_branch_accept_rules branch_name then
      match mirror_branch_dict.lookup branch_name with
      | some mirror_commit =>
        if origin_commit ≠ mirror_commit then
          ⟨tail.originAdded, branch_name :: tail.originUpdated⟩
        else tail
      | none => ⟨branch_name :: tail.originAdded, tail.originUpdated⟩
    else tail

/-- Selection predicate realised by the classifier for `originAdded`:
matched by some accept rule and absent from the mirror dict. -/
def added_pred (re_match : String → String → Bool) (mirror_branch_dict : List (String × String))
    (rules : List String) (p : String × String) : Bool :=
  branch_matched re_match rules p.1 && (mirror_branch_dict.lookup p.1).isNone

/-- Selection predicate realised by the classifier for `originUpdated`:
matched by some accept rule and present in the mirror dict with a different
commit. -/
def updated_pred (re_match : String → String → Bool) (mirror_branch_dict : List (String × String))
    (rules : List String) (p : String × String) : Bool :=
  branch_matched re_match rules p.1 &&
    (match mirror_branch_dict.lookup p.1 with
     | some mirror_commit => decide (p.2 ≠ mirror_commit)
     | none => false)

/-- `extract_hostname_from_git_url` (src/utils/url.py): the regular
expression `git@([^:]+):` matched at the start of the URL. The URL must
start with `git@`, followed by a non-empty run of non-colon characters (the
hostname) and a colon. -/
def extract_hostname_from_git_url (git_url : String) : Option String :=
  match git_url.data with
  | 'g' :: 'i' :: 't' :: '@' :: rest =>
    let h := rest.takeWhile (fun c => c != ':')
    if 0 < h.length ∧ h.length < rest.length then some (String.mk h) else none
  | _ => none

/-- The environment of one run: the subprocess runner of utils/cmdutils.py
(`run_cmd`, giving a return code and captured stdout), the
`configure_ssh_host` collaborator of utils/ssh.py, and the `re.match`
oracle for the accept rules. -/
structure Env where
  exec : List String → Int × String
  sshConfigOk : String → Bool
  re_match : String → String → Bool

/-- The sequence of commands a run hands to `run_cmd`, in order. -/
abbrev CmdTrace := List (List String)

/-- `["git", "init", "--initial-branch=false"]` (lines 101-105). -/
def git_init_cmd : List String := ["git", "init", "--initial-branch=false"]

/-- `git remote add origin <url>` (lines 112-118). -/
def remote_add_origin_cmd (origin_repo_url : String) : List String :=
  ["git", "remote", "add", "origin", origin_repo_url]

/-- `git remote add mirror <url>` (lines 125-131). -/
def remote_add_mirror_cmd (mirror_repo_url : String) : List String :=
  ["git", "remote", "add", "mirror", mirror_repo_url]

/-- `git ls-remote -h origin` (lines 143-148). -/
def ls_remote_origin_cmd : List String := ["git", "ls-remote", "-h", "origin"]

/-- `git ls-remote -h mirror` (lines 162-167). -/
def ls_remote_mirror_cmd : List String := ["git", "ls-remote", "-h", "mirror"]

/-- `git fetch mirror b:b --force` for an updated branch (lines 193-199). -/
def fetch_mirror_branch_cmd (b : String) : List String :=
  ["git", "fetch", "mirror", b ++ ":" ++ b, "--force"]

/-- `git switch b` (lines 205-209). -/
def switch_branch_cmd (b : String) : List String := ["git", "switch", b]

/-- `git pull origin b --no-edit`, the merge-with-auto-resolution pull
(lines 215-221). -/
def pull_origin_branch_cmd (b : String) : List String :=
  ["git", "pull", "origin", b, "--no-edit"]

/-- `git push mirror b` (lines 228-233 and 256-261: the same command is
built for updated and for added branches). -/
def push_branch_to_mirror_cmd (b : String) : List String := ["git", "push", "mirror", b]

/-- `git fetch origin b:b --force` for an added branch (lines 244-250). -/
def fetch_origin_added_branch_cmd (b : String) : List String :=
  ["git", "fetch", "origin", b ++ ":" ++ b, "--force"]

/-- `git fetch mirror --tags` (lines 268-273). -/
def fetch_mirror_tags_cmd : List String := ["git", "fetch", "mirror", "--tags"]

/-- `git fetch origin --tags` (lines 280-285). -/
def fetch_origin_tags_cmd : List String := ["git", "fetch", "origin", "--tags"]

/-- The tag push command of lines 291-297. The Python source writes the
argument list as `"-f" "--tags"` with no comma between the two literals, so
Python's adjacent-string-literal concatenation produces the single argument
`"-f--tags"`: the command carries neither a separate force option nor a
separate all-tags option. -/
def push_tags_to_mirror_cmd : List String := ["git", "push", "mirror", "-f--tags"]

/-- One `run_cmd` invocation followed by the `if returncode != 0: return
err` check that every call site of the pass performs. -/
def runStep (env : Env) (cmd : List String) (err : Int) : Except Int String × CmdTrace :=
  let r := env.exec cmd
  (if r.1 ≠ 0 then Except.error err else Except.ok r.2, [cmd])

/-- Sequencing of pass steps: an error short-circuits (no further command
runs), success concatenates the traces. -/
def bindRes {α β : Type} (x : Except Int α × CmdTrace)
    (f : α → Except Int β × CmdTrace) : Except Int β × CmdTrace :=
  match x with
  | (Except.error e, t) => (Except.error e, t)
  | (Except.ok a, t) => ((f a).1, t ++ (f a).2)

/-- A step that runs no command. -/
def pureRes {α : Type} (a : α) : Except Int α × CmdTrace := (Except.ok a, [])

/-- Embeds a Python-level exception (here: the ValueError of the ls-remote
parsing) into a pass step: the enclosing `except` clause makes the pass
return the generic `err` code (-1). -/
def liftExcept {α : Type} (x : Except Unit α) (err : Int) : Except Int α × CmdTrace :=
  match x with
  | Except.error _ => (Except.error err, [])
  | Except.ok a => (Except.ok a, [])

/-- The body of the updated-branch loop for one branch `b` (lines 190-237):
fetch the mirror's version, switch to it, pull (auto-merge) the origin's
version, push to the mirror; error codes -9, -10, -101, -11 in that order. -/
def sync_updated_branch (env : Env) (b : String) : Except Int Unit × CmdTrace :=
  bindRes (runStep env (fetch_mirror_branch_cmd b) (-9)) (fun _ =>
  bindRes (runStep env (switch_branch_cmd b) (-10)) (fun _ =>
  bindRes (runStep env (pull_origin_branch_cmd b) (-101)) (fun _ =>
  bindRes (runStep env (push_branch_to_mirror_cmd b) (-11)) (fun _ => pureRes ()))))

/-- The updated-branch loop over the classifier's `originUpdated` output. -/
def sync_updated_branches (env : Env) : List String → Except Int Unit × CmdTrace
  | [] => pureRes ()
  | b :: rest => bindRes (sync_updated_branch env b) (fun _ => sync_updated_branches env rest)

/-- The body of the added-branch loop for one branch `b` (lines 241-265):
fetch the origin's branch, push it to the mirror; error codes -12, -13. -/
def sync_added_branch (env : Env) (b : String) : Except Int Unit × CmdTrace :=
  bindRes (runStep env (fetch_origin_added_branch_cmd b) (-12)) (fun _ =>
  bindRes (runStep env (push_branch_to_mirror_cmd b) (-13)) (fun _ => pureRes ()))

/-- The added-branch loop over the classifier's `originAdded` output. -/
def sync_added_branches (env : Env) : List String → Except Int Unit × CmdTrace
  | [] => pureRes ()
  | b :: rest => bindRes (sync_added_branch env b) (fun _ => sync_added_branches env rest)

/-- Branch replication of one pass: all updated branches, then all added
branches. -/
def branch_phase (env : Env) (updated added : List String) : Except Int Unit × CmdTrace :=
  bindRes (sync_updated_branches env updated) (fun _ => sync_added_branches env added)

/-- Tag replication of one pass (lines 267-301): fetch the mirror's tags,
fetch the origin's tags, push the tag set to the mirror; error codes -14,
-15, -16. -/
def tag_phase (env : Env) : Except Int Unit × CmdTrace :=
  bindRes (runStep env fetch_mirror_tags_cmd (-14)) (fun _ =>
  bindRes (runStep env fetch_origin_tags_cmd (-15)) (fun _ =>
  bindRes (runStep env push_tags_to_mirror_cmd (-16)) (fun _ => pureRes ())))

/-- All stages of the pass from `git init` on (lines 100-304): workspace
binding, both snapshot queries with their parsing, classification, branch
replication and tag replication. -/
def pass_body (env : Env) (origin_repo_url mirror_repo_url : String)
    (changed_branch_accept_rules : List String) : Except Int Unit × CmdTrace :=
  bindRes (runStep env git_init_cmd (-4)) (fun _ =>
  bindRes (runStep env (remote_add_origin_cmd origin_repo_url) (-5)) (fun _ =>
  bindRes (runStep env (remote_add_mirror_cmd mirror_repo_url) (-6)) (fun _ =>
  bindRes (runStep env ls_remote_origin_cmd (-7)) (fun origin_out =>
  bindRes (liftExcept (parse_branches origin_out) (-1)) (fun origin_dict =>
  bindRes (runStep env ls_remote_mirror_cmd (-8)) (fun mirror_out =>
  bindRes (liftExcept (parse_branches mirror_out) (-1)) (fun mirror_dict =>
  bindRes (branch_phase env
      (get_origin_branch_changes env.re_match origin_dict mirror_dict
        changed_branch_accept_rules).originUpdated
      (get_origin_branch_changes env.re_match origin_dict mirror_dict
        changed_branch_accept_rules).originAdded) (fun _ =>
  tag_phase env))))))))

/-- What a call of the pass delivers to its caller: a return value, or a
Python exception escaping the call. -/
inductive PassOutcome where
  | ret (code : Int)
  | exn
deriving DecidableEq

/-- `try_sync_origin_updates_into_mirror` (lines 63-310). The local
variable `cwd` is assigned only at line 78, after the SSH-configuration
block, while the function's `finally` clause always runs `os.chdir(cwd)`;
so the `return -3` (hostname extraction failed, line 76) and `return -2`
(configure_ssh_host failed, line 73) are superseded by an
UnboundLocalError raised from the `finally` clause, and the call raises
instead of returning (`PassOutcome.exn`). Every later return site runs
after `cwd` is assigned and returns normally. -/
def try_sync_origin_updates_into_mirror (env : Env)
    (origin_repo_url mirror_repo_url : String)
    (changed_branch_accept_rules : List String) : PassOutcome × CmdTrace :=
  match extract_hostname_from_git_url origin_repo_url with
  | none => (PassOutcome.exn, [])
  | some hostname =>
    if env.sshConfigOk hostname then
      match pass_body env origin_repo_url mirror_repo_url changed_branch_accept_rules with
      | (Except.ok _, t) => (PassOutcome.ret 0, t)
      | (Except.error e, t) => (PassOutcome.ret e, t)
    else (PassOutcome.exn, [])

/-- What `main` (lines 313-355) produced: the process return code, the
commands run, and the (source URL, destination URL) of each pass invoked. -/
structure MainResult where
  code : Int
  trace : CmdTrace
  syncCalls : List (String × String)
deriving DecidableEq

/-- The driver `main` (lines 313-355) after configuration parsing. The
`for repo_pair in sync_needed_repo_pairs` loop (lines 333-336) leaves
`origin_repo_url` / `mirror_repo_url` bound to the LAST pair, and only
those two variables reach the two pass invocations (lines 343, 347); an
empty pair list leaves them unbound, so line 343 raises and the `except`
returns -1. A pass raising is caught by the same `except` (-1). The second
pass's result is bound to `return_code` (line 347) but line 349 returns
`returncode` — the first pass's code, which is 0 at that point — exactly as
the source reads. -/
def main (env : Env) (sync_needed_repo_pairs : List (String × String))
    (origin_changed_branch_accept_rules mirror_changed_branch_accept_rules : List String) :
    MainResult :=
  match sync_needed_repo_pairs.getLast? with
  | none => ⟨-1, [], []⟩
  | some (origin_repo_url, mirror_repo_url) =>
    match try_sync_origin_updates_into_mirror env origin_repo_url mirror_repo_url
        origin_changed_branch_accept_rules with
    | (PassOutcome.exn, t1) => ⟨-1, t1, [(origin_repo_url, mirror_repo_url)]⟩
    | (PassOutcome.ret returncode, t1) =>
      if returncode ≠ 0 then ⟨returncode, t1, [(origin_repo_url, mirror_repo_url)]⟩
      else
        match try_sync_origin_updates_into_mirror env mirror_repo_url origin_repo_url
            mirror_changed_branch_accept_rules with
        | (PassOutcome.exn, t2) =>
          ⟨-1, t1 ++ t2, [(origin_repo_url, mirror_repo_url), (mirror_repo_url, origin_repo_url)]⟩
        | (PassOutcome.ret return_code, t2) =>
          if return_code ≠ 0 then
            ⟨returncode, t1 ++ t2,
             [(origin_repo_url, mirror_repo_url), (mirror_repo_url, origin_repo_url)]⟩
          else
            ⟨0, t1 ++ t2,
             [(origin_repo_url, mirror_repo_url), (mirror_repo_url, origin_repo_url)]⟩

/-- The commands the updated-branch loop body issues for branch `b` when
every step succeeds. -/
def updated_branch_cmds (b : String) : CmdTrace :=
  [fetch_mirror_branch_cmd b, switch_branch_cmd b, pull_origin_branch_cmd b,
   push_branch_to_mirror_cmd b]

/-- The commands the added-branch loop body issues for branch `b` when
every step succeeds. -/
def added_branch_cmds (b : String) : CmdTrace :=
  [fetch_origin_added_branch_cmd b, push_branch_to_mirror_cmd b]

/-- All four steps of the updated-branch loop body succeed for `b`. -/
def updated_branch_ok (env : Env) (b : String) : Prop :=
  (env.exec (fetch_mirror_branch_cmd b)).1 = 0 ∧ (env.exec (switch_branch_cmd b)).1 = 0 ∧
  (env.exec (pull_origin_branch_cmd b)).1 = 0 ∧ (env.exec (push_branch_to_mirror_cmd b)).1 = 0

/-- The five workspace-setup and snapshot-query commands of a pass, before
any replication command. -/
def setup_trace (origin_repo_url mirror_repo_url : String) : CmdTrace :=
  [git_init_cmd, remote_add_origin_cmd origin_repo_url,
   remote_add_mirror_cmd mirror_repo_url, ls_remote_origin_cmd, ls_remote_mirror_cmd]

/-- A command of the Tag Replicator. -/
def is_tag_cmd (c : List String) : Prop :=
  c = fetch_mirror_tags_cmd ∨ c = fetch_origin_tags_cmd ∨ c = push_tags_to_mirror_cmd

/-- A replication command: any fetch, push, pull or switch (as opposed to
workspace setup and snapshot queries). -/
def is_replication_cmd (c : List String) : Prop :=
  c.get? 1 = some "fetch" ∨ c.get? 1 = some "push" ∨
  c.get? 1 = some "pull" ∨ c.get? 1 = some "switch"

/-- Both steps of the added-branch loop body succeed for `b`. -/
def added_branch_ok (env : Env) (b : String) : Prop :=
  (env.exec (fetch_origin_added_branch_cmd b)).1 = 0 ∧
  (env.exec (push_branch_to_mirror_cmd b)).1 = 0

theorem get_origin_branch_changes_eq_filter (re_match : String → String → Bool)
    (origin mirror : List (String × String)) (rules : List String) :
    get_origin_branch_changes re_match origin mirror rules =
      ⟨((origin.filter (added_pred re_match mirror rules)).map Prod.fst),
       ((origin.filter (updated_pred re_match mirror rules)).map Prod.fst)⟩ := by
  induction origin with
  | nil => rfl
  | cons hd tl ih =>
    obtain ⟨branch_name, origin_commit⟩ := hd
    rw [get_origin_branch_changes]
    by_cases hm : branch_matched re_match rules branch_name
    · rcases hl : mirror.lookup branch_name with _ | mirror_commit
      · simp [ih, List.filter_cons, added_pred, updated_pred, hm, hl]
      · by_cases hne : origin_commit ≠ mirror_commit
        · simp [ih, List.filter_cons, added_pred, updated_pred, hm, hl, hne]
        · simp [ih, List.filter_cons, added_pred, updated_pred, hm, hl, hne]
    · simp [ih, List.filter_cons, added_pred, updated_pred, hm]

theorem mem_originAdded_iff (re_match : String → String → Bool)
    (origin mirror : List (String × String)) (rules : List String) (n : String) :
    n ∈ (get_origin_branch_changes re_match origin mirror rules).originAdded ↔
      (∃ c, (n, c) ∈ origin) ∧ branch_matched re_match rules n = true ∧
        mirror.lookup n = none := by
  rw [get_origin_branch_changes_eq_filter]
  simp only [List.mem_map, List.mem_filter, added_pred]
  constructor
  · rintro ⟨⟨a, b⟩, ⟨hmem, hpred⟩, rfl⟩
    simp only [Bool.and_eq_true, Option.isNone_iff_eq_none] at hpred
    exact ⟨⟨b, hmem⟩, hpred.1, hpred.2⟩
  · rintro ⟨⟨c, hc⟩, hm, hl⟩
    exact ⟨(n, c), ⟨hc, by simp [hm, hl]⟩, rfl⟩

theorem mem_originUpdated_iff (re_match : String → String → Bool)
    (origin mirror : List (String × String)) (rules : List String) (n : String) :
    n ∈ (get_origin_branch_changes re_match origin mirror rules).originUpdated ↔
      ∃ c, (n, c) ∈ origin ∧ branch_matched re_match rules n = true ∧
        ∃ mc, mirror.lookup n = some mc ∧ c ≠ mc := by
  rw [get_origin_branch_changes_eq_filter]
  simp only [List.mem_map, List.mem_filter, updated_pred]
  constructor
  · rintro ⟨p, ⟨hmem, hpred⟩, hfst⟩
    simp only [Bool.and_eq_true] at hpred
    rcases hpred with ⟨hm, hrest⟩
    rcases hl : mirror.lookup p.1 with _ | mc
    · rw [hl] at hrest; simp at hrest
    · rw [hl] at hrest
      simp only [decide_eq_true_eq] at hrest
      subst hfst
      exact ⟨p.2, by rw [Prod.mk.eta]; exact hmem, hm, mc, hl, hrest⟩
  · rintro ⟨c, hc, hm, mc, hl, hne⟩
    refine ⟨(n, c), ⟨hc, ?_⟩, rfl⟩
    simp [hm, hl, hne]

/-- First-entry lookup agrees with any membership when the keys are unique
(Python dicts cannot hold a key twice). -/
theorem lookup_eq_of_nodup {l : List (String × String)} {n c : String}
    (hnd : (l.map Prod.fst).Nodup) (hmem : (n, c) ∈ l) : l.lookup n = some c := by
  induction l with
  | nil => cases hmem
  | cons hd tl ih =>
    obtain ⟨k, v⟩ := hd
    simp only [List.map_cons, List.nodup_cons] at hnd
    rcases List.mem_cons.mp hmem with heq | htl
    · injection heq with h1 h2
      subst h1; subst h2
      simp [List.lookup]
    · have hne : n ≠ k := by
        rintro rfl
        exact hnd.1 (List.mem_map.mpr ⟨(n, c), htl, rfl⟩)
      have hbeq : (n == k) = false := beq_eq_false_iff_ne.mpr hne
      simp only [List.lookup, hbeq]
      exact ih hnd.2 htl

theorem key_unique_of_nodup {l : List (String × String)} {n c1 c2 : String}
    (hnd : (l.map Prod.fst).Nodup) (h1 : (n, c1) ∈ l) (h2 : (n, c2) ∈ l) : c1 = c2 := by
  have e1 := lookup_eq_of_nodup hnd h1
  have e2 := lookup_eq_of_nodup hnd h2
  rw [e1] at e2
  injection e2

/-- Claim C1: for a ref `name` of the source snapshot (keys unique, as in a
Python dict), the classifier considers it iff some accept rule matches it
under the `re.match` oracle; a considered ref lands in `originAdded` iff
absent from the destination snapshot, in `originUpdated` iff present with a
different commit, and in neither when present with an equal commit. -/
theorem C1_classifier_considers_and_classifies (re_match : String → String → Bool)
    (origin mirror : List (String × String)) (rules : List String)
    (name commit : String)
    (hnd : (origin.map Prod.fst).Nodup) (hmem : (name, commit) ∈ origin) :
    (name ∈ (get_origin_branch_changes re_match origin mirror rules).originAdded ↔
      branch_matched re_match rules name = true ∧ mirror.lookup name = none) ∧
    (name ∈ (get_origin_branch_changes re_match origin mirror rules).originUpdated ↔
      branch_matched re_match rules name = true ∧
        ∃ mc, mirror.lookup name = some mc ∧ commit ≠ mc) ∧
    (branch_matched re_match rules name = false →
      name ∉ (get_origin_branch_changes re_match origin mirror rules).originAdded ∧
      name ∉ (get_origin_branch_changes re_match origin mirror rules).originUpdated) ∧
    (mirror.lookup name = some commit →
      name ∉ (get_origin_branch_changes re_match origin mirror rules).originAdded ∧
      name ∉ (get_origin_branch_changes re_match origin mirror rules).originUpdated) := by
  have hadd := mem_originAdded_iff re_match origin mirror rules name
  have hupd := mem_originUpdated_iff re_match origin mirror rules name
  have hAdd : name ∈ (get_origin_branch_changes re_match origin mirror rules).originAdded ↔
      branch_matched re_match rules name = true ∧ mirror.lookup name = none := by
    rw [hadd]
    constructor
    · rintro ⟨_, hm, hl⟩; exact ⟨hm, hl⟩
    · rintro ⟨hm, hl⟩; exact ⟨⟨commit, hmem⟩, hm, hl⟩
  have hUpd : name ∈ (get_origin_branch_changes re_match origin mirror rules).originUpdated ↔
      branch_matched re_match rules name = true ∧
        ∃ mc, mirror.lookup name = some mc ∧ commit ≠ mc := by
    rw [hupd]
    constructor
    · rintro ⟨c, hc, hm, mc, hl, hne⟩
      have : commit = c := key_unique_of_nodup hnd hmem hc
      exact ⟨hm, mc, hl, this ▸ hne⟩
    · rintro ⟨hm, mc, hl, hne⟩
      exact ⟨commit, hmem, hm, mc, hl, hne⟩
  refine ⟨hAdd, hUpd, ?_, ?_⟩
  · intro hmf
    constructor
    · intro h; rw [hAdd] at h; rw [hmf] at h; exact absurd h.1 (by simp)
    · intro h; rw [hUpd] at h; rw [hmf] at h; exact absurd h.1 (by simp)
  · intro hl
    constructor
    · intro h; rw [hAdd] at h; rw [hl] at h; exact absurd h.2 (by simp)
    · intro h
      rw [hUpd] at h
      rcases h.2 with ⟨mc, hmc, hne⟩
      rw [hl] at hmc
      injection hmc with hmc
      exact hne hmc

/-- Witness for C1 at a concrete source snapshot, destination snapshot and
rule list: `main` differs between the snapshots and `dev` is new. -/
theorem C1_witness :
    ("main" ∈ (get_origin_branch_changes (fun reg n => reg == n)
        [("main", "a1"), ("dev", "b1")] [("main", "a2")] ["main", "dev"]).originAdded ↔
      branch_matched (fun reg n => reg == n) ["main", "dev"] "main" = true ∧
        List.lookup "main" [("main", "a2")] = none) ∧
    ("main" ∈ (get_origin_branch_changes (fun reg n => reg == n)
        [("main", "a1"), ("dev", "b1")] [("main", "a2")] ["main", "dev"]).originUpdated ↔
      branch_matched (fun reg n => reg == n) ["main", "dev"] "main" = true ∧
        ∃ mc, List.lookup "main" [("main", "a2")] = some mc ∧ "a1" ≠ mc) ∧
    (branch_matched (fun reg n => reg == n) ["main", "dev"] "main" = false →
      "main" ∉ (get_origin_branch_changes (fun reg n => reg == n)
        [("main", "a1"), ("dev", "b1")] [("main", "a2")] ["main", "dev"]).originAdded ∧
      "main" ∉ (get_origin_branch_changes (fun reg n => reg == n)
        [("main", "a1"), ("dev", "b1")] [("main", "a2")] ["main", "dev"]).originUpdated) ∧
    (List.lookup "main" [("main", "a2")] = some "a1" →
      "main" ∉ (get_origin_branch_changes (fun reg n => reg == n)
        [("main", "a1"), ("dev", "b1")] [("main", "a2")] ["main", "dev"]).originAdded ∧
      "main" ∉ (get_origin_branch_changes (fun reg n => reg == n)
        [("main", "a1"), ("dev", "b1")] [("main", "a2")] ["main", "dev"]).originUpdated) :=
  C1_classifier_considers_and_classifies (fun reg n => reg == n)
    [("main", "a1"), ("dev", "b1")] [("main", "a2")] ["main", "dev"] "main" "a1"
    (by decide) (by decide)

/-- Claim C7: for every pair of snapshots and rule list, `originAdded` and
`originUpdated` are disjoint, and every name in either sequence is a key of
the source snapshot matched by at least one accept rule (so a name absent
from the source snapshot never appears). -/
theorem C7_classifier_invariants (re_match : String → String → Bool)
    (origin mirror : List (String × String)) (rules : List String) :
    (∀ n, n ∈ (get_origin_branch_changes re_match origin mirror rules).originAdded →
      n ∉ (get_origin_branch_changes re_match origin mirror rules).originUpdated) ∧
    (∀ n, n ∈ (get_origin_branch_changes re_match origin mirror rules).originAdded ∨
        n ∈ (get_origin_branch_changes re_match origin mirror rules).originUpdated →
      n ∈ origin.map Prod.fst ∧ branch_matched re_match rules n = true) := by
  constructor
  · intro n ha hu
    rw [mem_originAdded_iff] at ha
    rw [mem_originUpdated_iff] at hu
    rcases hu with ⟨c, _, _, mc, hl, _⟩
    rw [ha.2.2] at hl
    cases hl
  · intro n h
    rcases h with ha | hu
    · rw [mem_originAdded_iff] at ha
      rcases ha with ⟨⟨c, hc⟩, hm, _⟩
      exact ⟨List.mem_map.mpr ⟨(n, c), hc, rfl⟩, hm⟩
    · rw [mem_originUpdated_iff] at hu
      rcases hu with ⟨c, hc, hm, _⟩
      exact ⟨List.mem_map.mpr ⟨(n, c), hc, rfl⟩, hm⟩

/-- Claim C9: classifying any snapshot against an identical destination
snapshot (keys unique, as in a Python dict) yields empty `originAdded` and
`originUpdated`: a pass re-run immediately after full success replicates
nothing. -/
theorem C9_identical_snapshots_classify_empty (re_match : String → String → Bool)
    (d : List (String × String)) (rules : List String)
    (hnd : (d.map Prod.fst).Nodup) :
    get_origin_branch_changes re_match d d rules = ⟨[], []⟩ := by
  rw [get_origin_branch_changes_eq_filter]
  have hlook : ∀ p ∈ d, d.lookup p.1 = some p.2 := by
    intro p hp
    exact lookup_eq_of_nodup hnd (by rw [Prod.mk.eta]; exact hp)
  have hfa : d.filter (added_pred re_match d rules) = [] := by
    rw [List.filter_eq_nil_iff]
    intro p hp
    simp [added_pred, hlook p hp]
  have hfu : d.filter (updated_pred re_match d rules) = [] := by
    rw [List.filter_eq_nil_iff]
    intro p hp
    simp [updated_pred, hlook p hp]
  rw [hfa, hfu]
  rfl

/-- Witness for C9 at a concrete two-branch snapshot. -/
theorem C9_witness :
    get_origin_branch_changes (fun _ _ => true)
      [("main", "a1"), ("dev", "b1")] [("main", "a1"), ("dev", "b1")] ["x"] = ⟨[], []⟩ :=
  C9_identical_snapshots_classify_empty (fun _ _ => true)
    [("main", "a1"), ("dev", "b1")] ["x"] (by decide)

theorem bindRes_error {α β : Type} (e : Int) (t : CmdTrace)
    (f : α → Except Int β × CmdTrace) :
    bindRes (Except.error e, t) f = (Except.error e, t) := rfl

theorem bindRes_ok {α β : Type} (a : α) (t : CmdTrace)
    (f : α → Except Int β × CmdTrace) :
    bindRes (Except.ok a, t) f = ((f a).1, t ++ (f a).2) := rfl

theorem runStep_trace (env : Env) (cmd : List String) (err : Int) :
    (runStep env cmd err).2 = [cmd] := rfl

theorem runStep_rc_ok {env : Env} {cmd : List String} {err : Int}
    (h : (env.exec cmd).1 = 0) :
    runStep env cmd err = (Except.ok (env.exec cmd).2, [cmd]) := by
  simp [runStep, h]

theorem runStep_rc_fail {env : Env} {cmd : List String} {err : Int}
    (h : (env.exec cmd).1 ≠ 0) :
    runStep env cmd err = (Except.error err, [cmd]) := by
  simp [runStep, h]

theorem sync_updated_branch_ok {env : Env} {b : String} (h : updated_branch_ok env b) :
    sync_updated_branch env b = (Except.ok (), updated_branch_cmds b) := by
  obtain ⟨h1, h2, h3, h4⟩ := h
  simp [sync_updated_branch, runStep_rc_ok h1, runStep_rc_ok h2, runStep_rc_ok h3,
    runStep_rc_ok h4, bindRes, pureRes, updated_branch_cmds]

theorem sync_updated_branches_ok {env : Env} {bs : List String}
    (h : ∀ b ∈ bs, updated_branch_ok env b) :
    sync_updated_branches env bs = (Except.ok (), (bs.map updated_branch_cmds).flatten) := by
  induction bs with
  | nil => rfl
  | cons b rest ih =>
    rw [sync_updated_branches, sync_updated_branch_ok (h b (by simp)), bindRes_ok,
      ih (fun y hy => h y (by simp [hy]))]
    simp

theorem sync_updated_branch_pull_fail {env : Env} {b : String}
    (hf : (env.exec (fetch_mirror_branch_cmd b)).1 = 0)
    (hsw : (env.exec (switch_branch_cmd b)).1 = 0)
    (hp : (env.exec (pull_origin_branch_cmd b)).1 ≠ 0) :
    sync_updated_branch env b =
      (Except.error (-101),
       [fetch_mirror_branch_cmd b, switch_branch_cmd b, pull_origin_branch_cmd b]) := by
  simp [sync_updated_branch, runStep_rc_ok hf, runStep_rc_ok hsw, runStep_rc_fail hp, bindRes]

theorem sync_updated_branches_fail {env : Env} {bs1 bs2 : List String} {b : String}
    {e : Int} {tb : CmdTrace}
    (hpre : ∀ x ∈ bs1, updated_branch_ok env x)
    (hb : sync_updated_branch env b = (Except.error e, tb)) :
    sync_updated_branches env (bs1 ++ b :: bs2) =
      (Except.error e, (bs1.map updated_branch_cmds).flatten ++ tb) := by
  induction bs1 with
  | nil =>
    rw [List.nil_append, sync_updated_branches, hb, bindRes_error]
    simp
  | cons x rest ih =>
    rw [List.cons_append, sync_updated_branches, sync_updated_branch_ok (hpre x (by simp)),
      bindRes_ok, ih (fun y hy => hpre y (by simp [hy]))]
    simp

theorem mem_bindRes_trace {α β : Type} {x : Except Int α × CmdTrace}
    {f : α → Except Int β × CmdTrace} {c : List String}
    (h : c ∈ (bindRes x f).2) : c ∈ x.2 ∨ ∃ a, c ∈ (f a).2 := by
  obtain ⟨r, t⟩ := x
  cases r with
  | error e => exact Or.inl h
  | ok a =>
    rw [bindRes_ok] at h
    rcases List.mem_append.mp h with h1 | h2
    · exact Or.inl h1
    · exact Or.inr ⟨a, h2⟩

theorem mem_sync_updated_branch_trace {env : Env} {b : String} {c : List String}
    (h : c ∈ (sync_updated_branch env b).2) : c ∈ updated_branch_cmds b := by
  rw [sync_updated_branch] at h
  rcases mem_bindRes_trace h with h1 | ⟨_, h⟩
  · rw [runStep_trace] at h1
    simp [updated_branch_cmds, List.mem_singleton.mp h1]
  · rcases mem_bindRes_trace h with h1 | ⟨_, h⟩
    · rw [runStep_trace] at h1
      simp [updated_branch_cmds, List.mem_singleton.mp h1]
    · rcases mem_bindRes_trace h with h1 | ⟨_, h⟩
      · rw [runStep_trace] at h1
        simp [updated_branch_cmds, List.mem_singleton.mp h1]
      · rcases mem_bindRes_trace h with h1 | ⟨_, h⟩
        · rw [runStep_trace] at h1
          simp [updated_branch_cmds, List.mem_singleton.mp h1]
        · simp [pureRes] at h

theorem mem_sync_added_branch_trace {env : Env} {b : String} {c : List String}
    (h : c ∈ (sync_added_branch env b).2) : c ∈ added_branch_cmds b := by
  rw [sync_added_branch] at h
  rcases mem_bindRes_trace h with h1 | ⟨_, h⟩
  · rw [runStep_trace] at h1
    simp [added_branch_cmds, List.mem_singleton.mp h1]
  · rcases mem_bindRes_trace h with h1 | ⟨_, h⟩
    · rw [runStep_trace] at h1
      simp [added_branch_cmds, List.mem_singleton.mp h1]
    · simp [pureRes] at h

theorem mem_sync_updated_branches_trace {env : Env} {bs : List String} {c : List String}
    (h : c ∈ (sync_updated_branches env bs).2) : ∃ b ∈ bs, c ∈ updated_branch_cmds b := by
  induction bs with
  | nil => simp [sync_updated_branches, pureRes] at h
  | cons b rest ih =>
    rw [sync_updated_branches] at h
    rcases mem_bindRes_trace h with h1 | ⟨_, h2⟩
    · exact ⟨b, by simp, mem_sync_updated_branch_trace h1⟩
    · rcases ih h2 with ⟨x, hx, hc⟩
      exact ⟨x, by simp [hx], hc⟩

theorem mem_sync_added_branches_trace {env : Env} {bs : List String} {c : List String}
    (h : c ∈ (sync_added_branches env bs).2) : ∃ b ∈ bs, c ∈ added_branch_cmds b := by
  induction bs with
  | nil => simp [sync_added_branches, pureRes] at h
  | cons b rest ih =>
    rw [sync_added_branches] at h
    rcases mem_bindRes_trace h with h1 | ⟨_, h2⟩
    · exact ⟨b, by simp, mem_sync_added_branch_trace h1⟩
    · rcases ih h2 with ⟨x, hx, hc⟩
      exact ⟨x, by simp [hx], hc⟩

theorem mem_branch_phase_trace {env : Env} {updated added : List String} {c : List String}
    (h : c ∈ (branch_phase env updated added).2) :
    (∃ b ∈ updated, c ∈ updated_branch_cmds b) ∨ (∃ b ∈ added, c ∈ added_branch_cmds b) := by
  rw [branch_phase] at h
  rcases mem_bindRes_trace h with h1 | ⟨_, h2⟩
  · exact Or.inl (mem_sync_updated_branches_trace h1)
  · exact Or.inr (mem_sync_added_branches_trace h2)

theorem not_tag_cmd_of_updated {b : String} {c : List String} (hb : b ≠ "-f--tags")
    (h : c ∈ updated_branch_cmds b) : ¬ is_tag_cmd c := by
  simp only [updated_branch_cmds, List.mem_cons, List.mem_singleton,
    List.not_mem_nil, or_false] at h
  rcases h with rfl | rfl | rfl | rfl <;>
    simp [is_tag_cmd, fetch_mirror_branch_cmd, switch_branch_cmd, pull_origin_branch_cmd,
      push_branch_to_mirror_cmd, fetch_mirror_tags_cmd, fetch_origin_tags_cmd,
      push_tags_to_mirror_cmd, hb]

theorem not_tag_cmd_of_added {b : String} {c : List String} (hb : b ≠ "-f--tags")
    (h : c ∈ added_branch_cmds b) : ¬ is_tag_cmd c := by
  simp only [added_branch_cmds, List.mem_cons, List.mem_singleton,
    List.not_mem_nil, or_false] at h
  rcases h with rfl | rfl <;>
    simp [is_tag_cmd, fetch_origin_added_branch_cmd, push_branch_to_mirror_cmd,
      fetch_mirror_tags_cmd, fetch_origin_tags_cmd, push_tags_to_mirror_cmd, hb]

theorem not_tag_cmd_of_setup {o m : String} {c : List String}
    (h : c ∈ setup_trace o m) : ¬ is_tag_cmd c := by
  simp only [setup_trace, List.mem_cons, List.mem_singleton,
    List.not_mem_nil, or_false] at h
  rcases h with rfl | rfl | rfl | rfl | rfl <;>
    simp [is_tag_cmd, git_init_cmd, remote_add_origin_cmd, remote_add_mirror_cmd,
      ls_remote_origin_cmd, ls_remote_mirror_cmd, fetch_mirror_tags_cmd,
      fetch_origin_tags_cmd, push_tags_to_mirror_cmd]

theorem push_mem_updated_cmds {x y : String}
    (h : push_branch_to_mirror_cmd y ∈ updated_branch_cmds x) : y = x := by
  simp only [updated_branch_cmds, List.mem_cons, List.mem_singleton,
    List.not_mem_nil, or_false, push_branch_to_mirror_cmd, fetch_mirror_branch_cmd,
    switch_branch_cmd, pull_origin_branch_cmd] at h
  simpa using h

theorem pull_mem_updated_cmds {x y : String}
    (h : pull_origin_branch_cmd y ∈ updated_branch_cmds x) : y = x := by
  simp only [updated_branch_cmds, List.mem_cons, List.mem_singleton,
    List.not_mem_nil, or_false, push_branch_to_mirror_cmd, fetch_mirror_branch_cmd,
    switch_branch_cmd, pull_origin_branch_cmd] at h
  simpa using h

theorem pass_body_after_setup {env : Env} {o m : String} {rules : List String}
    {oOut mOut : String} {oD mD : List (String × String)}
    (hinit : (env.exec git_init_cmd).1 = 0)
    (haddo : (env.exec (remote_add_origin_cmd o)).1 = 0)
    (haddm : (env.exec (remote_add_mirror_cmd m)).1 = 0)
    (hlso : env.exec ls_remote_origin_cmd = (0, oOut))
    (hpo : parse_branches oOut = Except.ok oD)
    (hlsm : env.exec ls_remote_mirror_cmd = (0, mOut))
    (hpm : parse_branches mOut = Except.ok mD) :
    pass_body env o m rules =
      ((bindRes (branch_phase env
          (get_origin_branch_changes env.re_match oD mD rules).originUpdated
          (get_origin_branch_changes env.re_match oD mD rules).originAdded)
          (fun _ => tag_phase env)).1,
       setup_trace o m ++
        (bindRes (branch_phase env
          (get_origin_branch_changes env.re_match oD mD rules).originUpdated
          (get_origin_branch_changes env.re_match oD mD rules).originAdded)
          (fun _ => tag_phase env)).2) := by
  simp [pass_body, runStep, liftExcept, bindRes, hinit, haddo, haddm, hlso, hpo, hlsm, hpm,
    setup_trace]

theorem try_sync_of_pass_body {env : Env} {o m hst : String} {rules : List String}
    {e : Int} {t : CmdTrace}
    (hh : extract_hostname_from_git_url o = some hst)
    (hssh : env.sshConfigOk hst = true)
    (hpb : pass_body env o m rules = (Except.error e, t)) :
    try_sync_origin_updates_into_mirror env o m rules = (PassOutcome.ret e, t) := by
  rw [try_sync_origin_updates_into_mirror, hh]
  simp [hssh, hpb]

/-- Claim C4: in a pass that reaches the branch phase, when the
merge-with-auto-resolution pull of an updated branch `b` fails (after any
earlier updated branches replicated cleanly), the pass returns -101 (the
MergeConflict code) with the trace ending at that pull: the push of `b` to
the mirror is never issued, and the pull of `b` appears exactly once (no
automatic retry or resolution). -/
theorem C4_merge_conflict_aborts_before_push
    (env : Env) (o m hst : String) (rules : List String)
    (oOut mOut : String) (oD mD : List (String × String))
    (bs1 bs2 : List String) (b : String)
    (hh : extract_hostname_from_git_url o = some hst)
    (hssh : env.sshConfigOk hst = true)
    (hinit : (env.exec git_init_cmd).1 = 0)
    (haddo : (env.exec (remote_add_origin_cmd o)).1 = 0)
    (haddm : (env.exec (remote_add_mirror_cmd m)).1 = 0)
    (hlso : env.exec ls_remote_origin_cmd = (0, oOut))
    (hpo : parse_branches oOut = Except.ok oD)
    (hlsm : env.exec ls_remote_mirror_cmd = (0, mOut))
    (hpm : parse_branches mOut = Except.ok mD)
    (hupd : (get_origin_branch_changes env.re_match oD mD rules).originUpdated =
      bs1 ++ b :: bs2)
    (hpre : ∀ x ∈ bs1, updated_branch_ok env x)
    (hbn : b ∉ bs1)
    (hf : (env.exec (fetch_mirror_branch_cmd b)).1 = 0)
    (hsw : (env.exec (switch_branch_cmd b)).1 = 0)
    (hp : (env.exec (pull_origin_branch_cmd b)).1 ≠ 0) :
    try_sync_origin_updates_into_mirror env o m rules =
      (PassOutcome.ret (-101),
       setup_trace o m ++ ((bs1.map updated_branch_cmds).flatten ++
         [fetch_mirror_branch_cmd b, switch_branch_cmd b, pull_origin_branch_cmd b])) ∧
    push_branch_to_mirror_cmd b ∉ (try_sync_origin_updates_into_mirror env o m rules).2 ∧
    ((try_sync_origin_updates_into_mirror env o m rules).2).count
      (pull_origin_branch_cmd b) = 1 := by
  have hloop := @sync_updated_branches_fail env bs1 bs2 b (-101)
    [fetch_mirror_branch_cmd b, switch_branch_cmd b, pull_origin_branch_cmd b]
    hpre (sync_updated_branch_pull_fail hf hsw hp)
  have hbp : branch_phase env
      (get_origin_branch_changes env.re_match oD mD rules).originUpdated
      (get_origin_branch_changes env.re_match oD mD rules).originAdded =
      (Except.error (-101), (bs1.map updated_branch_cmds).flatten ++
        [fetch_mirror_branch_cmd b, switch_branch_cmd b, pull_origin_branch_cmd b]) := by
    rw [branch_phase, hupd, hloop, bindRes_error]
  have hpb : pass_body env o m rules =
      (Except.error (-101),
       setup_trace o m ++ ((bs1.map updated_branch_cmds).flatten ++
         [fetch_mirror_branch_cmd b, switch_branch_cmd b, pull_origin_branch_cmd b])) := by
    rw [pass_body_after_setup hinit haddo haddm hlso hpo hlsm hpm, hbp, bindRes_error]
  have hts := try_sync_of_pass_body hh hssh hpb
  refine ⟨hts, ?_, ?_⟩
  · rw [hts]
    intro hc
    simp only [List.mem_append] at hc
    rcases hc with hc | hc | hc
    · simp only [setup_trace, List.mem_cons, List.not_mem_nil, or_false] at hc
      rcases hc with hc | hc | hc | hc | hc <;>
        simp [push_branch_to_mirror_cmd, git_init_cmd, remote_add_origin_cmd,
          remote_add_mirror_cmd, ls_remote_origin_cmd, ls_remote_mirror_cmd] at hc
    · rcases List.mem_flatten.mp hc with ⟨l, hl, hcl⟩
      rcases List.mem_map.mp hl with ⟨x, hx, rfl⟩
      exact hbn (push_mem_updated_cmds hcl ▸ hx)
    · simp only [List.mem_cons, List.not_mem_nil, or_false] at hc
      rcases hc with hc | hc | hc <;>
        simp [push_branch_to_mirror_cmd, fetch_mirror_branch_cmd, switch_branch_cmd,
          pull_origin_branch_cmd] at hc
  · rw [hts]
    simp only [List.count_append]
    have c1 : (setup_trace o m).count (pull_origin_branch_cmd b) = 0 := by
      rw [List.count_eq_zero]
      intro hc
      simp only [setup_trace, List.mem_cons, List.not_mem_nil, or_false] at hc
      rcases hc with hc | hc | hc | hc | hc <;>
        simp [pull_origin_branch_cmd, git_init_cmd, remote_add_origin_cmd,
          remote_add_mirror_cmd, ls_remote_origin_cmd, ls_remote_mirror_cmd] at hc
    have c2 : ((bs1.map updated_branch_cmds).flatten).count (pull_origin_branch_cmd b) = 0 := by
      rw [List.count_eq_zero]
      intro hc
      rcases List.mem_flatten.mp hc with ⟨l, hl, hcl⟩
      rcases List.mem_map.mp hl with ⟨x, hx, rfl⟩
      exact hbn (pull_mem_updated_cmds hcl ▸ hx)
    have c3 : ([fetch_mirror_branch_cmd b, switch_branch_cmd b,
        pull_origin_branch_cmd b]).count (pull_origin_branch_cmd b) = 1 := by
      have n1 : pull_origin_branch_cmd b ≠ fetch_mirror_branch_cmd b := by
        simp [pull_origin_branch_cmd, fetch_mirror_branch_cmd]
      have n2 : pull_origin_branch_cmd b ≠ switch_branch_cmd b := by
        simp [pull_origin_branch_cmd, switch_branch_cmd]
      simp [List.count_cons, n1.symm, n2.symm]
    rw [c1, c2, c3]

/-- Witness for C4: one updated branch `main` whose pull exits non-zero. -/
theorem C4_witness :
    try_sync_origin_updates_into_mirror
      ⟨fun cmd => if cmd = pull_origin_branch_cmd "main" then (1, "")
        else if cmd = ls_remote_origin_cmd then (0, "a1 refs/heads/main")
        else if cmd = ls_remote_mirror_cmd then (0, "a2 refs/heads/main")
        else (0, ""), fun _ => true, fun _ _ => true⟩
      "git@h:o.git" "git@h:m.git" ["r"] =
      (PassOutcome.ret (-101),
       setup_trace "git@h:o.git" "git@h:m.git" ++
         (((List.map updated_branch_cmds []).flatten) ++
          [fetch_mirror_branch_cmd "main", switch_branch_cmd "main",
           pull_origin_branch_cmd "main"])) ∧
    push_branch_to_mirror_cmd "main" ∉
      (try_sync_origin_updates_into_mirror
        ⟨fun cmd => if cmd = pull_origin_branch_cmd "main" then (1, "")
          else if cmd = ls_remote_origin_cmd then (0, "a1 refs/heads/main")
          else if cmd = ls_remote_mirror_cmd then (0, "a2 refs/heads/main")
          else (0, ""), fun _ => true, fun _ _ => true⟩
        "git@h:o.git" "git@h:m.git" ["r"]).2 ∧
    ((try_sync_origin_updates_into_mirror
        ⟨fun cmd => if cmd = pull_origin_branch_cmd "main" then (1, "")
          else if cmd = ls_remote_origin_cmd then (0, "a1 refs/heads/main")
          else if cmd = ls_remote_mirror_cmd then (0, "a2 refs/heads/main")
          else (0, ""), fun _ => true, fun _ _ => true⟩
        "git@h:o.git" "git@h:m.git" ["r"]).2).count (pull_origin_branch_cmd "main") = 1 :=
  C4_merge_conflict_aborts_before_push
    ⟨fun cmd => if cmd = pull_origin_branch_cmd "main" then (1, "")
      else if cmd = ls_remote_origin_cmd then (0, "a1 refs/heads/main")
      else if cmd = ls_remote_mirror_cmd then (0, "a2 refs/heads/main")
      else (0, ""), fun _ => true, fun _ _ => true⟩
    "git@h:o.git" "git@h:m.git" "h" ["r"]
    "a1 refs/heads/main" "a2 refs/heads/main" [("main", "a1")] [("main", "a2")]
    [] [] "main"
    (by decide) rfl (by decide) (by decide) (by decide) (by decide) rfl
    (by decide) rfl (by decide) (fun x hx => absurd hx (List.not_mem_nil x))
    (by decide) (by decide) (by decide) (by decide)

/-- Claim C5: when the branch phase of a pass that reached it fails with
code `e`, the pass returns exactly `e` and its command trace holds no tag
command at all: tag replication runs only after every classified branch
(updated and added) replicated successfully. The hypothesis that no
classified branch is literally named `-f--tags` rules out a branch push
textually identical to the tag push (git forbids ref components starting
with a dash). -/
theorem C5_branch_failure_skips_tag_phase
    (env : Env) (o m hst : String) (rules : List String)
    (oOut mOut : String) (oD mD : List (String × String))
    (updated added : List String) (e : Int) (tb : CmdTrace)
    (hh : extract_hostname_from_git_url o = some hst)
    (hssh : env.sshConfigOk hst = true)
    (hinit : (env.exec git_init_cmd).1 = 0)
    (haddo : (env.exec (remote_add_origin_cmd o)).1 = 0)
    (haddm : (env.exec (remote_add_mirror_cmd m)).1 = 0)
    (hlso : env.exec ls_remote_origin_cmd = (0, oOut))
    (hpo : parse_branches oOut = Except.ok oD)
    (hlsm : env.exec ls_remote_mirror_cmd = (0, mOut))
    (hpm : parse_branches mOut = Except.ok mD)
    (hU : (get_origin_branch_changes env.re_match oD mD rules).originUpdated = updated)
    (hA : (get_origin_branch_changes env.re_match oD mD rules).originAdded = added)
    (hbp : branch_phase env updated added = (Except.error e, tb))
    (hnames : ∀ x, x ∈ updated ∨ x ∈ added → x ≠ "-f--tags") :
    try_sync_origin_updates_into_mirror env o m rules =
      (PassOutcome.ret e, setup_trace o m ++ tb) ∧
    ∀ c ∈ setup_trace o m ++ tb, ¬ is_tag_cmd c := by
  have hpb : pass_body env o m rules = (Except.error e, setup_trace o m ++ tb) := by
    rw [pass_body_after_setup hinit haddo haddm hlso hpo hlsm hpm, hU, hA, hbp, bindRes_error]
  refine ⟨try_sync_of_pass_body hh hssh hpb, ?_⟩
  intro c hc
  rcases List.mem_append.mp hc with hc | hc
  · exact not_tag_cmd_of_setup hc
  · have hc2 : c ∈ (branch_phase env updated added).2 := by
      rw [hbp]
      exact hc
    rcases mem_branch_phase_trace hc2 with ⟨x, hx, hcl⟩ | ⟨x, hx, hcl⟩
    · exact not_tag_cmd_of_updated (hnames x (Or.inl hx)) hcl
    · exact not_tag_cmd_of_added (hnames x (Or.inr hx)) hcl

/-- Witness for C5: one added branch `dev` whose push to the mirror fails,
so the pass returns -13 with no tag command in the trace. -/
theorem C5_witness :
    try_sync_origin_updates_into_mirror
      ⟨fun cmd => if cmd = push_branch_to_mirror_cmd "dev" then (1, "")
        else if cmd = ls_remote_origin_cmd then (0, "b1 refs/heads/dev")
        else (0, ""), fun _ => true, fun _ _ => true⟩
      "git@h:o.git" "git@h:m.git" ["r"] =
      (PassOutcome.ret (-13),
       setup_trace "git@h:o.git" "git@h:m.git" ++
         [fetch_origin_added_branch_cmd "dev", push_branch_to_mirror_cmd "dev"]) ∧
    ∀ c ∈ setup_trace "git@h:o.git" "git@h:m.git" ++
        [fetch_origin_added_branch_cmd "dev", push_branch_to_mirror_cmd "dev"],
      ¬ is_tag_cmd c :=
  C5_branch_failure_skips_tag_phase
    ⟨fun cmd => if cmd = push_branch_to_mirror_cmd "dev" then (1, "")
      else if cmd = ls_remote_origin_cmd then (0, "b1 refs/heads/dev")
      else (0, ""), fun _ => true, fun _ _ => true⟩
    "git@h:o.git" "git@h:m.git" "h" ["r"]
    "b1 refs/heads/dev" "" [("dev", "b1")] [] [] ["dev"]
    (-13) [fetch_origin_added_branch_cmd "dev", push_branch_to_mirror_cmd "dev"]
    (by decide) rfl (by decide) (by decide) (by decide) (by decide) rfl
    (by decide) rfl (by decide) (by decide) rfl
    (by
      intro x hx
      rcases hx with hx | hx
      · cases hx
      · rw [List.mem_singleton.mp hx]
        decide)

/-- Claim C8: in a pass whose workspace setup succeeded, (1) every
non-blank listing line of exactly two whitespace-separated tokens
`commit-id ref-path` is parsed to the entry mapping the path component
after the final slash to that commit identifier; (2) if the origin listing
command exits non-zero the pass returns -7 having issued no replication
command; (3) if the mirror listing command exits non-zero (origin listing
parsed fine) the pass returns -8 having issued no replication command. -/
theorem C8_snapshot_reader
    (env : Env) (o m hst : String) (rules : List String)
    (hh : extract_hostname_from_git_url o = some hst)
    (hssh : env.sshConfigOk hst = true)
    (hinit : (env.exec git_init_cmd).1 = 0)
    (haddo : (env.exec (remote_add_origin_cmd o)).1 = 0)
    (haddm : (env.exec (remote_add_mirror_cmd m)).1 = 0) :
    (∀ line ch rp, py_nonblank line = true → py_split_ws line = [ch, rp] →
      parse_branch_line line = Except.ok (some (last_path_component rp, ch))) ∧
    ((env.exec ls_remote_origin_cmd).1 ≠ 0 →
      try_sync_origin_updates_into_mirror env o m rules =
        (PassOutcome.ret (-7),
         [git_init_cmd, remote_add_origin_cmd o, remote_add_mirror_cmd m,
          ls_remote_origin_cmd]) ∧
      ∀ c ∈ [git_init_cmd, remote_add_origin_cmd o, remote_add_mirror_cmd m,
          ls_remote_origin_cmd], ¬ is_replication_cmd c) ∧
    (∀ oOut oD, env.exec ls_remote_origin_cmd = (0, oOut) →
      parse_branches oOut = Except.ok oD →
      (env.exec ls_remote_mirror_cmd).1 ≠ 0 →
      try_sync_origin_updates_into_mirror env o m rules =
        (PassOutcome.ret (-8), setup_trace o m) ∧
      ∀ c ∈ setup_trace o m, ¬ is_replication_cmd c) := by
  refine ⟨?_, ?_, ?_⟩
  · intro line ch rp hnb hsp
    rw [parse_branch_line, if_pos hnb, hsp]
  · intro hq
    have hpb : pass_body env o m rules =
        (Except.error (-7),
         [git_init_cmd, remote_add_origin_cmd o, remote_add_mirror_cmd m,
          ls_remote_origin_cmd]) := by
      simp [pass_body, runStep, bindRes, hinit, haddo, haddm, hq]
    refine ⟨try_sync_of_pass_body hh hssh hpb, ?_⟩
    intro c hc
    simp only [List.mem_cons, List.not_mem_nil, or_false] at hc
    rcases hc with rfl | rfl | rfl | rfl <;>
      simp [is_replication_cmd, git_init_cmd, remote_add_origin_cmd,
        remote_add_mirror_cmd, ls_remote_origin_cmd]
  · intro oOut oD hlso hpo hq
    have hpb : pass_body env o m rules = (Except.error (-8), setup_trace o m) := by
      simp [pass_body, runStep, bindRes, liftExcept, hinit, haddo, haddm, hlso, hpo, hq,
        setup_trace]
    refine ⟨try_sync_of_pass_body hh hssh hpb, ?_⟩
    intro c hc
    simp only [setup_trace, List.mem_cons, List.not_mem_nil, or_false] at hc
    rcases hc with rfl | rfl | rfl | rfl | rfl <;>
      simp [is_replication_cmd, git_init_cmd, remote_add_origin_cmd,
        remote_add_mirror_cmd, ls_remote_origin_cmd, ls_remote_mirror_cmd]

/-- Witness for C8: a concrete environment whose origin listing command
exits 1, and a concrete well-formed listing line. -/
theorem C8_witness :
    (try_sync_origin_updates_into_mirror
        ⟨fun cmd => if cmd = ls_remote_origin_cmd then (1, "") else (0, ""),
         fun _ => true, fun _ _ => true⟩
        "git@h:o.git" "git@h:m.git" [] =
      (PassOutcome.ret (-7),
       [git_init_cmd, remote_add_origin_cmd "git@h:o.git",
        remote_add_mirror_cmd "git@h:m.git", ls_remote_origin_cmd]) ∧
     ∀ c ∈ [git_init_cmd, remote_add_origin_cmd "git@h:o.git",
        remote_add_mirror_cmd "git@h:m.git", ls_remote_origin_cmd],
       ¬ is_replication_cmd c) ∧
    parse_branch_line "a1 refs/heads/main" =
      Except.ok (some (last_path_component "refs/heads/main", "a1")) :=
  ⟨(C8_snapshot_reader
      ⟨fun cmd => if cmd = ls_remote_origin_cmd then (1, "") else (0, ""),
       fun _ => true, fun _ _ => true⟩
      "git@h:o.git" "git@h:m.git" "h" []
      (by decide) rfl (by decide) (by decide) (by decide)).2.1 (by decide),
   (C8_snapshot_reader
      ⟨fun cmd => if cmd = ls_remote_origin_cmd then (1, "") else (0, ""),
       fun _ => true, fun _ _ => true⟩
      "git@h:o.git" "git@h:m.git" "h" []
      (by decide) rfl (by decide) (by decide) (by decide)).1
     "a1 refs/heads/main" "a1" "refs/heads/main" (by decide) (by decide)⟩

/-- Claim C2, refuted on the code: with an environment in which the first
pass (origin to mirror) fully succeeds and the second pass (mirror to
origin) fails at the `git remote add origin` step with -5, the driver
returns 0, not -5: line 349 of sync-origin-and-mirror.py returns
`returncode` (the first pass's code) instead of `return_code` (the second
pass's). -/
theorem C2_driver_masks_second_pass_failure :
    (try_sync_origin_updates_into_mirror
        ⟨fun cmd => if cmd = remote_add_origin_cmd "git@h:m.git" then (1, "") else (0, ""),
         fun _ => true, fun _ _ => false⟩
        "git@h:o.git" "git@h:m.git" []).1 = PassOutcome.ret 0 ∧
    (try_sync_origin_updates_into_mirror
        ⟨fun cmd => if cmd = remote_add_origin_cmd "git@h:m.git" then (1, "") else (0, ""),
         fun _ => true, fun _ _ => false⟩
        "git@h:m.git" "git@h:o.git" []).1 = PassOutcome.ret (-5) ∧
    (main
        ⟨fun cmd => if cmd = remote_add_origin_cmd "git@h:m.git" then (1, "") else (0, ""),
         fun _ => true, fun _ _ => false⟩
        [("git@h:o.git", "git@h:m.git")] [] []).code = 0 := by
  refine ⟨rfl, rfl, rfl⟩

/-- Claim C3, refuted on the code: the tag phase does fetch the
destination's tags, then the source's tags, then issue one push to the
destination — but that push carries the single malformed argument
`"-f--tags"` (the Python source omits the comma between the adjacent
string literals `"-f"` and `"--tags"`, which concatenates them), not a
separate force option and a separate all-tags option. -/
theorem C3_tag_push_lacks_separate_flags :
    tag_phase ⟨fun _ => (0, ""), fun _ => true, fun _ _ => false⟩ =
      (Except.ok (), [fetch_mirror_tags_cmd, fetch_origin_tags_cmd,
        push_tags_to_mirror_cmd]) ∧
    push_tags_to_mirror_cmd = ["git", "push", "mirror", "-f--tags"] ∧
    "-f" ∉ push_tags_to_mirror_cmd ∧ "--tags" ∉ push_tags_to_mirror_cmd := by
  refine ⟨rfl, rfl, by decide, by decide⟩

/-- Claim C6, refuted on the code for the -2 and -3 sites: on a URL from which
no hostname can be extracted, and likewise when the SSH trust
configuration fails, the pass raises (the `finally` clause dereferences the
local `cwd`, assigned only at line 78, after both `return -3` and
`return -2`) and the driver's `except` turns this into the generic -1: the
distinct codes -3 and -2 never reach any caller. -/
theorem C6_ssh_and_hostname_codes_never_returned :
    extract_hostname_from_git_url "https://example.com/repo.git" = none ∧
    try_sync_origin_updates_into_mirror ⟨fun _ => (0, ""), fun _ => true, fun _ _ => false⟩
      "https://example.com/repo.git" "git@h:m.git" [] = (PassOutcome.exn, []) ∧
    (main ⟨fun _ => (0, ""), fun _ => true, fun _ _ => false⟩
      [("https://example.com/repo.git", "git@h:m.git")] [] []).code = -1 ∧
    try_sync_origin_updates_into_mirror ⟨fun _ => (0, ""), fun _ => false, fun _ _ => false⟩
      "git@h:o.git" "git@h:m.git" [] = (PassOutcome.exn, []) ∧
    (main ⟨fun _ => (0, ""), fun _ => false, fun _ _ => false⟩
      [("git@h:o.git", "git@h:m.git")] [] []).code = -1 := by
  refine ⟨rfl, rfl, rfl, rfl, rfl⟩

/-- Claim C10: whatever the environment does, when the configuration lists
more than one repository pair the driver's pass invocations use only the
last pair's URLs — the first pass on (origin, mirror) of the last pair and,
at most, the second pass on (mirror, origin) of the last pair; no earlier
pair is ever synchronized. -/
theorem C10_only_last_pair_synced
    (env : Env) (pairs : List (String × String))
    (originRules mirrorRules : List String) (o m : String)
    (hlen : 1 < pairs.length)
    (hlast : pairs.getLast? = some (o, m)) :
    (main env pairs originRules mirrorRules).syncCalls = [(o, m)] ∨
    (main env pairs originRules mirrorRules).syncCalls = [(o, m), (m, o)] := by
  unfold main
  rw [hlast]
  rcases h1 : try_sync_origin_updates_into_mirror env o m originRules with ⟨out1, t1⟩
  cases out1 with
  | exn => simp [h1]
  | ret rc =>
    by_cases hrc : rc ≠ 0
    · simp [h1, hrc]
    · rcases h2 : try_sync_origin_updates_into_mirror env m o mirrorRules with ⟨out2, t2⟩
      cases out2 with
      | exn => simp [h1, hrc, h2]
      | ret rc2 =>
        by_cases hrc2 : rc2 ≠ 0
        · simp [h1, hrc, h2, hrc2]
        · simp [h1, hrc, h2, hrc2]

/-- Witness for C10: two configured pairs; only the second (last) pair's
URLs appear in the pass invocations. -/
theorem C10_witness :
    (main ⟨fun _ => (0, ""), fun _ => true, fun _ _ => false⟩
        [("git@a:1.git", "git@b:1.git"), ("git@h:o.git", "git@h:m.git")] [] []).syncCalls =
      [("git@h:o.git", "git@h:m.git")] ∨
    (main ⟨fun _ => (0, ""), fun _ => true, fun _ _ => false⟩
        [("git@a:1.git", "git@b:1.git"), ("git@h:o.git", "git@h:m.git")] [] []).syncCalls =
      [("git@h:o.git", "git@h:m.git"), ("git@h:m.git", "git@h:o.git")] :=
  C10_only_last_pair_synced ⟨fun _ => (0, ""), fun _ => true, fun _ _ => false⟩
    [("git@a:1.git", "git@b:1.git"), ("git@h:o.git", "git@h:m.git")] [] []
    "git@h:o.git" "git@h:m.git" (by decide) (by decide)

end GitSync
